import Mathlib

/-!
Shallow embedding of the `wgman` WireGuard configuration manager
(`wgman/config.py`, `wgman/status.py`, `wgman/msg.py`), together with
theorems checking the natural-language specification against it.

Python strings are modelled as Lean `String`; the Python string
operations used by the code (`startswith`, slicing, `in`, `endswith`,
`strip`, `split`) are modelled on the underlying character list where
proofs need to look inside them.  Functions that call
`msg.error_and_exit` (which prints a diagnostic and terminates the
process with a non-zero status) are modelled in the `Except String`
monad: `.error msg` is "the process terminated, after printing `msg`".
The filesystem (used by `file:` key indirection) is modelled as a
partial map from path to file contents.
-/

namespace Wgman

/-! ### ANSI colour constants, from `msg.py` -/

def GREEN : String := "\x1b[92;1m"
def BLUE : String := "\x1b[94;1m"
def YELLOW : String := "\x1b[93;1m"
def RED : String := "\x1b[91;1m"
def GREY : String := "\x1b[90;1m"
def BOLD : String := "\x1b[1m"
def ALL_OFF : String := "\x1b[0m"
def PINK_NB : String := "\x1b[95m"

/-! ### Python string-operation models -/

/-- Model of Python `s.startswith(pre)`: the first `pre.length` characters
of `s` are exactly `pre`. -/
def pyStartsWith (s pre : String) : Bool :=
  s.data.take pre.data.length == pre.data

/-- Model of Python `s[n:]`: drop the first `n` characters. -/
def pyDropLeft (s : String) (n : Nat) : String :=
  ⟨s.data.drop n⟩

/-- Model of Python `s.endswith(suf)`: the last `suf.length` characters
of `s` are exactly `suf`. -/
def pyEndsWith (s suf : String) : Bool :=
  s.data.drop (s.data.length - suf.data.length) == suf.data

/-- Model of Python `s[:-n]` (for `n ≤ len(s)`): drop the last `n`
characters. -/
def pyDropRight (s : String) (n : Nat) : String :=
  ⟨s.data.take (s.data.length - n)⟩

/-- Model of Python `c in s` for a single character. -/
def pyContainsChar (s : String) (c : Char) : Bool :=
  s.data.contains c

/-- Model of Python `s.strip()`: remove leading and trailing whitespace. -/
def pyStrip (s : String) : String :=
  ⟨(s.data.dropWhile Char.isWhitespace).reverse.dropWhile Char.isWhitespace |>.reverse⟩

/-- Split a character list at every occurrence of a separator
character, keeping empty groups, as Python `str.split(sep)` does for a
one-character separator. -/
def splitOnChar : List Char → Char → List (List Char)
  | [], _ => [[]]
  | c :: rest, sep =>
    match splitOnChar rest sep with
    | [] => [[c]]
    | h :: t => if c == sep then [] :: h :: t else (c :: h) :: t

/-- Model of Python `os.path.basename`: everything after the last `/`. -/
def pyBasename (p : String) : String :=
  ⟨(splitOnChar p.data '/').getLastD []⟩

/-- Model of the root part of Python `os.path.splitext` on a basename:
cut at the last dot, unless every character before that dot is itself a
dot (so dotfiles such as `.bashrc` keep their name whole). -/
def pySplitextRoot (base : String) : String :=
  let cs := base.data
  let dotIdxs := (List.range cs.length).filter (fun i => cs.getD i ' ' == '.')
  match dotIdxs.getLast? with
  | none => base
  | some i => if (cs.take i).all (· == '.') then base else ⟨cs.take i⟩

/-! ### Data model, from `config.py` -/

/-- A configured peer (`config.py`, class `Peer`). -/
structure Peer where
  name : String
  ip : String
  public_key : String
  pre_shared_key : Option String
deriving DecidableEq, Repr

/-- One interface's configuration (`config.py`, class `Config`). -/
structure Config where
  name : String
  subnet : String
  mtu : Option Int
  post_up_cmd : Option String
  post_down_cmd : Option String
  interface : Option String
  port : Int
  private_key : String
  peers : List Peer
deriving DecidableEq, Repr

/-! ### Renderer, from `Config.make_wg_conf` (`config.py` lines 35-67).

The Python function builds a `lines: list[str]` and returns
`"\n".join(lines)`.  `wg_conf_lines` is that list, built in the same
order; the three helper definitions name its consecutive segments. -/

/-- Lines 36-42 of `config.py`: the `[Interface]` header and the
Address / SaveConfig / ListenPort / PrivateKey keys, plus MTU when set. -/
def Config.interface_block_lines (c : Config) : List String :=
  ["[Interface]",
   "Address = " ++ c.subnet,
   "SaveConfig = false",
   "ListenPort = " ++ toString c.port,
   "PrivateKey = " ++ c.private_key]
  ++ (match c.mtu with
      | some m => ["MTU = " ++ toString m]
      | none => [])

/-- Lines 44-53 of `config.py`: explicit PostUp/PostDown when both are
given, else the synthesized iptables NAT/forwarding pair when an uplink
`interface` is set, else nothing. -/
def Config.post_cmd_lines (c : Config) : List String :=
  match c.post_up_cmd, c.post_down_cmd with
  | some up, some down =>
      ["PostUp = " ++ up, "PostDown = " ++ down]
  | _, _ =>
      match c.interface with
      | some iface =>
          ["PostUp = iptables -I FORWARD 1 -i " ++ c.name ++ " -j ACCEPT; "
             ++ "iptables -t nat -I POSTROUTING 1 -o " ++ iface ++ " -j MASQUERADE",
           "PostDown = iptables -D FORWARD -i " ++ c.name ++ " -j ACCEPT; "
             ++ "iptables -t nat -D POSTROUTING -o " ++ iface ++ " -j MASQUERADE"]
      | none => []

/-- Lines 57-65 of `config.py`: one `[Peer]` block, closed by an empty
line. -/
def Peer.block_lines (p : Peer) : List String :=
  ["[Peer]",
   "AllowedIPs = " ++ p.ip,
   "PublicKey = " ++ p.public_key]
  ++ (match p.pre_shared_key with
      | some psk => ["PresharedKey = " ++ psk]
      | none => [])
  ++ [""]

/-- The full `lines` list of `make_wg_conf`. -/
def Config.wg_conf_lines (c : Config) : List String :=
  c.interface_block_lines ++ c.post_cmd_lines ++ [""]
    ++ (c.peers.map Peer.block_lines).flatten

/-- `Config.make_wg_conf` (`config.py` line 67): `"\n".join(lines)`. -/
def Config.make_wg_conf (c : Config) : String :=
  String.intercalate "\n" c.wg_conf_lines

/-- `Config.lookup_peer_by_pub_key` (`config.py` lines 69-74): scan the
peer list in order and return the first peer whose public key equals
`key`, `none` if the loop falls through. -/
def Config.lookup_peer_by_pub_key (c : Config) (key : String) : Option Peer :=
  c.peers.find? (fun peer => peer.public_key == key)

/-! ### Loader, from `Config.load` / `Config.read_key` -/

/-- The filesystem as seen by `file:` key indirection: path to contents,
`none` when the path does not exist. -/
def FileSystem : Type := String → Option String

/-- `Config.read_key` (`config.py` lines 144-152): a value starting with
`file:` is replaced by the stripped contents of the named file, a
missing file is fatal, anything else is returned verbatim. -/
def Config.read_key (fs : FileSystem) (key : String) : Except String String :=
  if pyStartsWith key "file:" then
    let path := pyDropLeft key ("file:".length)
    match fs path with
    | none => .error ("File \x27" ++ path ++ "\x27 does not exist")
    | some contents => .ok (pyStrip contents)
  else
    .ok key

/-- A TOML value as produced by `tomllib.load`, restricted to the kinds
the configuration schema uses: strings, integers and tables.  A table is
an association list in document order (TOML keys are unique). -/
inductive TomlVal where
  | str (s : String)
  | int (n : Int)
  | table (kvs : List (String × TomlVal))

/-- Model of Python `d[k]` / `k in d` on a parsed TOML table: the value
under the first matching key, if any. -/
def lookupKey (kvs : List (String × TomlVal)) (k : String) : Option TomlVal :=
  (kvs.find? (fun kv => kv.1 == k)).map (fun kv => kv.2)

/-- Model of Python `isinstance(v, int)` on a TOML value. -/
def TomlVal.isInt : TomlVal → Bool
  | .int _ => true
  | _ => false

/-- Model of `[0-9]+`: a non-empty run of ASCII digits. -/
def allDigits1 (cs : List Char) : Bool :=
  !cs.isEmpty && cs.all Char.isDigit

/-- Model of `[0-9]{1,3}`: one to three ASCII digits. -/
def octetRun (cs : List Char) : Bool :=
  decide (1 ≤ cs.length) && decide (cs.length ≤ 3) && cs.all Char.isDigit

/-- Full match of `([0-9]{1,3})(\.[0-9]{1,3}){3}`: four dot-separated
one-to-three digit runs. -/
def matchesDottedQuad (cs : List Char) : Bool :=
  match splitOnChar cs '.' with
  | [a, b, c, d] => octetRun a && octetRun b && octetRun c && octetRun d
  | _ => false

/-- Full match of the `subnet` pattern of `config.py` line 99:
`([0-9]{1,3})(\.[0-9]{1,3}){3}/[0-9]+` (the `/` and prefix length are
mandatory). -/
def matchesSubnetPattern (s : String) : Bool :=
  match splitOnChar s.data '/' with
  | [quad, pfx] => matchesDottedQuad quad && allDigits1 pfx
  | _ => false

/-- Full match of the peer `ip` pattern of `config.py` line 117:
`([0-9]{1,3})(\.[0-9]{1,3}){3}(/[0-9]+)?` (the prefix is optional). -/
def matchesPeerIpPattern (s : String) : Bool :=
  match splitOnChar s.data '/' with
  | [quad] => matchesDottedQuad quad
  | [quad, pfx] => matchesDottedQuad quad && allDigits1 pfx
  | _ => false

/-- The body of the peer loop of `Config.load` (`config.py` lines
110-130): required keys, the ip pattern check, `/32` widening, optional
pre-shared-key indirection, then public-key indirection.  A peer value
that is not a table would crash the Python `in` test with an uncaught
`TypeError` (still a non-returning termination); it is modelled as an
error, as are the unchecked `cast(str, ...)` coercions that would make
`re.fullmatch` or `str.startswith` raise. -/
def loadPeer (fs : FileSystem) (name : String) (pval : TomlVal) : Except String Peer :=
  match pval with
  | .table pcfg =>
    if (lookupKey pcfg "public-key").isNone then
      .error ("Missing required key \x27public-key\x27 for peer \x27" ++ name ++ "\x27")
    else if (lookupKey pcfg "ip").isNone then
      .error ("Missing required key \x27ip\x27 for peer \x27" ++ name ++ "\x27")
    else
      match lookupKey pcfg "ip" with
      | some (.str ip0) =>
        if !matchesPeerIpPattern ip0 then
          .error ("Invalid IP address for peer \x27" ++ name ++ "\x27")
        else
          let ip := if pyContainsChar ip0 '/' then ip0 else ip0 ++ "/32"
          let pskE : Except String (Option String) :=
            match lookupKey pcfg "pre-shared-key" with
            | none => .ok none
            | some (.str k) => (Config.read_key fs k).map some
            | some _ => .error "TypeError: startswith first arg must be str"
          match pskE with
          | .error e => .error e
          | .ok psk =>
            match lookupKey pcfg "public-key" with
            | some (.str pk) =>
              match Config.read_key fs pk with
              | .error e => .error e
              | .ok pub => .ok { name := name, ip := ip, public_key := pub,
                                 pre_shared_key := psk }
            | _ => .error "TypeError: startswith first arg must be str"
      | some _ => .error "TypeError: expected string or bytes-like object"
      | none => .error ("Missing required key \x27ip\x27 for peer \x27" ++ name ++ "\x27")
  | _ => .error "TypeError: argument of type is not iterable"

/-- The peer loop of `Config.load` (`config.py` lines 102-130): peers in
table order, the first failing peer terminates the process. -/
def loadPeers (fs : FileSystem) : List (String × TomlVal) → Except String (List Peer)
  | [] => .ok []
  | (name, pval) :: rest =>
    match loadPeer fs name pval with
    | .error e => .error e
    | .ok p =>
      match loadPeers fs rest with
      | .error e => .error e
      | .ok ps => .ok (p :: ps)

/-- Model of `srv_cfg.get(k)` for the optional string keys `post-up`,
`post-down` and `interface` (declared as strings by the schema). -/
def lookupStr (kvs : List (String × TomlVal)) (k : String) : Option String :=
  match lookupKey kvs k with
  | some (.str s) => some s
  | _ => none

/-- Model of `srv_cfg.get("mtu")` after its `isinstance(int)` check. -/
def lookupInt (kvs : List (String × TomlVal)) (k : String) : Option Int :=
  match lookupKey kvs k with
  | some (.int n) => some n
  | _ => none

/-- `Config.load` (`config.py` lines 77-142) after `tomllib.load`: the
argument `cfg` is the parsed top-level table, `file` the path the TOML
was read from (used only to derive the interface name).  The checks run
in source order: `server` present; `subnet`, `port`, `private-key`
present; `port` an integer in `[1, 65535]`; `mtu` (when present) an
integer; `subnet` full-matching the CIDR pattern; then the peer table.
A `server` or `subnet` value of the wrong type would crash Python with
an uncaught `TypeError` at the corresponding check; this is modelled as
an error at the same point. -/
def Config.load (fs : FileSystem) (file : String)
    (cfg : List (String × TomlVal)) : Except String Config :=
  match lookupKey cfg "server" with
  | none => .error "Missing required key \x27server\x27"
  | some (.table srv) =>
    if (lookupKey srv "subnet").isNone then
      .error "Missing required key \x27subnet\x27 in \x27server\x27"
    else if (lookupKey srv "port").isNone then
      .error "Missing required key \x27port\x27 in \x27server\x27"
    else if (lookupKey srv "private-key").isNone then
      .error "Missing required key \x27private-key\x27 in \x27server\x27"
    else
      match lookupKey srv "port" with
      | some (.int port) =>
        if !(decide (1 ≤ port) && decide (port ≤ 65535)) then
          .error "\x27port\x27 must be between 1 and 65535"
        else if (match lookupKey srv "mtu" with
                 | some v => !v.isInt
                 | none => false) then
          .error "\x27mtu\x27 key must be an integer"
        else
          match lookupKey srv "subnet" with
          | some (.str subnet) =>
            if !matchesSubnetPattern subnet then
              .error "Invalid \x27subnet\x27 specification; expected subnet in CIDR notation"
            else
              match (match lookupKey cfg "peer" with
                     | none => .ok []
                     | some (.table ps) => loadPeers fs ps
                     | some _ => .error "Invalid type of peer list" :
                     Except String (List Peer)) with
              | .error e => .error e
              | .ok peers =>
                match (match lookupKey srv "private-key" with
                       | some (.str k) => Config.read_key fs k
                       | _ => .error "TypeError: startswith first arg must be str") with
                | .error e => .error e
                | .ok priv =>
                  .ok { name := pySplitextRoot (pyBasename file),
                        subnet := subnet,
                        port := port,
                        private_key := priv,
                        mtu := lookupInt srv "mtu",
                        post_up_cmd := lookupStr srv "post-up",
                        post_down_cmd := lookupStr srv "post-down",
                        interface := lookupStr srv "interface",
                        peers := peers }
          | some _ => .error "TypeError: expected string or bytes-like object"
          | none => .error "Missing required key \x27subnet\x27 in \x27server\x27"
      | some _ => .error "\x27port\x27 key must be an integer"
      | none => .error "\x27port\x27 key must be an integer"
  | some _ => .error "TypeError: argument of type is not iterable"

/-! ### Status reporting, from `status.py` -/

/-- The pure core of `time_to_relative_string` (`status.py` lines
14-31) as a function of the already-computed non-negative difference
`diff = int(time.time()) - t`: the `divmod` chain and the four-way
formatting cases. -/
def time_to_relative_string_diff (diff : Nat) : String :=
  let days := diff / 86400
  let r := diff % 86400
  let hrs := r / 3600
  let r2 := r % 3600
  let mins := r2 / 60
  let secs := r2 % 60
  if days > 0 then
    if hrs > 0 then
      toString days ++ "d " ++ toString hrs ++ "h"
    else
      toString days ++ "d"
  else if hrs > 0 then
    toString hrs ++ "h " ++ toString mins ++ "m"
  else if mins > 0 then
    toString mins ++ "m " ++ toString secs ++ "s"
  else
    toString secs ++ "s"

/-- `time_to_relative_string` (`status.py` lines 14-31) with the wall
clock passed explicitly: `assert diff >= 0` is modelled as `none` on a
negative difference (the assertion raises; the function does not
return a string). -/
def time_to_relative_string (now t : Int) : Option String :=
  if 0 ≤ now - t then
    some (time_to_relative_string_diff (now - t).toNat)
  else
    none

/-- The last-handshake display logic of `show_status` (`status.py`
lines 97-102): a non-zero handshake epoch goes through
`time_to_relative_string` and gets the suffix word "ago"; a zero epoch
bypasses it entirely and displays a grey literal "never" with an empty
suffix.  The result pairs the handshake string with the suffix word. -/
def handshake_display (now last_handshake : Int) : Option (String × String) :=
  if last_handshake ≠ 0 then
    (time_to_relative_string now last_handshake).map (fun s => (s, "ago"))
  else
    some (GREY ++ "never", "")

/-- Round `x / 2 ^ k` to the nearest tenth, halves to even, returning
the result in tenths.  For `x < 2 ^ 53` the Python expression
`x / 2**k` is an exact binary double, and CPython's `:.1f` formatting
rounds that exact value to one decimal place with ties to even, so this
is exactly the integer numeral sequence Python prints. -/
def tenthsDiv (x k : Nat) : Nat :=
  let n := 10 * x
  let d := 2 ^ k
  let q := n / d
  let r := n % d
  if 2 * r < d then q
  else if d < 2 * r then q + 1
  else if q % 2 == 0 then q else q + 1

/-- Decimal rendering of a value given in tenths, as `:.1f` prints it:
whole part, a dot, one digit. -/
def fmtTenths (t : Nat) : String :=
  toString (t / 10) ++ "." ++ toString (t % 10)

/-- `bytes_to_str` (`status.py` lines 33-41): thresholds at 1024,
1024², 1024³ with suffixes b / k / M / G, the `b` case printed as a
bare integer and the rest with one decimal place. -/
def bytes_to_str (x : Nat) : String :=
  if x < 1024 then toString x ++ "b"
  else if x < 1024 ^ 2 then fmtTenths (tenthsDiv x 10) ++ "k"
  else if x < 1024 ^ 3 then fmtTenths (tenthsDiv x 20) ++ "M"
  else fmtTenths (tenthsDiv x 30) ++ "G"

/-- One already-split line of `wg show <iface> dump` as destructured by
`show_status` (`status.py` line 77): public key, endpoint, allowed-IPs,
last-handshake epoch, and the rx/tx counters (the two `_` fields are
never used). -/
structure DumpRecord where
  public_key : String
  endpoint : String
  allowed_ips : String
  last_handshake : Int
  rx : Nat
  tx : Nat
deriving DecidableEq, Repr

/-- What `show_status` derives from one dump record (`status.py` lines
79-87): the resolved or fabricated peer, the unknown flag, the
display-stripped IP and the name colour. -/
structure PeerDisplay where
  peer : Peer
  is_unknown : Bool
  display_ip : String
  name_colour : String
deriving DecidableEq, Repr

/-- The per-record resolution and display logic of `show_status`
(`status.py` lines 79-87): look the public key up in the config, on a
miss fabricate an "unknown" peer carrying the record's own allowed-IPs
and no pre-shared key, and strip a trailing `/32` from the displayed IP
only. -/
def process_dump_record (cfg : Config) (rec : DumpRecord) : PeerDisplay :=
  let found := cfg.lookup_peer_by_pub_key rec.public_key
  let unknown_peer := found.isNone
  let peer := match found with
    | some p => p
    | none => { name := "unknown", ip := rec.allowed_ips,
                public_key := rec.public_key, pre_shared_key := none }
  let ip_str := if pyEndsWith rec.allowed_ips "/32" then
      pyDropRight rec.allowed_ips 3
    else
      rec.allowed_ips
  { peer := peer,
    is_unknown := unknown_peer,
    display_ip := ip_str,
    name_colour := if unknown_peer then RED else BLUE }

/-- The record loop of `show_status` over the parsed dump lines: every
record yields a display entry, unknown peers included — no record
aborts the processing of the ones after it. -/
def process_dump_records (cfg : Config) (recs : List DumpRecord) : List PeerDisplay :=
  recs.map (process_dump_record cfg)

/-! ### Spec-side definitions

These restate parts of the specification in its own words, to be
compared with the definitions embedded from the source above. -/

/-- Spec §4.2 renderer, assembled as the spec describes it: one
interface block (Address, SaveConfig hard-coded to false, ListenPort,
PrivateKey, MTU only if set), then the first-match-wins NAT policy,
then one peer block per peer in original order (AllowedIPs, PublicKey,
PresharedKey only if set), each peer block followed by a blank
separator line.  Optional keys are spliced with `Option.toList` and the
blocks are joined as lines. -/
def render_spec (c : Config) : String :=
  let interfaceBlock :=
    ["[Interface]", "Address = " ++ c.subnet, "SaveConfig = false",
     "ListenPort = " ++ toString c.port, "PrivateKey = " ++ c.private_key]
    ++ (c.mtu.map (fun m => "MTU = " ++ toString m)).toList
  let natPolicy :=
    if c.post_up_cmd.isSome && c.post_down_cmd.isSome then
      ["PostUp = " ++ c.post_up_cmd.getD "", "PostDown = " ++ c.post_down_cmd.getD ""]
    else if c.interface.isSome then
      let iface := c.interface.getD ""
      ["PostUp = iptables -I FORWARD 1 -i " ++ c.name
         ++ " -j ACCEPT; iptables -t nat -I POSTROUTING 1 -o " ++ iface
         ++ " -j MASQUERADE",
       "PostDown = iptables -D FORWARD -i " ++ c.name
         ++ " -j ACCEPT; iptables -t nat -D POSTROUTING -o " ++ iface
         ++ " -j MASQUERADE"]
    else
      []
  let peerBlock := fun (p : Peer) =>
    ["[Peer]", "AllowedIPs = " ++ p.ip, "PublicKey = " ++ p.public_key]
    ++ (p.pre_shared_key.map (fun k => "PresharedKey = " ++ k)).toList
    ++ [""]
  String.intercalate "\n"
    (interfaceBlock ++ natPolicy ++ [""] ++ (c.peers.map peerBlock).flatten)

/-- Spec §4.4 relative-time formatter, in the spec's own unit formulas:
`d = diff/86400`, `h = (diff mod 86400)/3600`, `m = (diff mod 3600)/60`,
`s = diff mod 60`, rendered days→"{d}d {h}h" (or "{d}d" if h = 0), else
hours→"{h}h {m}m", else minutes→"{m}m {s}s", else seconds→"{s}s". -/
def relative_spec (diff : Nat) : String :=
  let d := diff / 86400
  let h := diff % 86400 / 3600
  let m := diff % 3600 / 60
  let s := diff % 60
  if 0 < d then
    (if 0 < h then toString d ++ "d " ++ toString h ++ "h" else toString d ++ "d")
  else if 0 < h then toString h ++ "h " ++ toString m ++ "m"
  else if 0 < m then toString m ++ "m " ++ toString s ++ "s"
  else toString s ++ "s"

/-- Spec §4.4 byte-size unit selection: the largest unit (b, k, M, G =
1024^0..1024^3) such that the value is < 1024 in that unit, with no
suffix beyond G — i.e. the first power p with x < 1024^(p+1), capped
at 3. -/
def byte_unit_index (x : Nat) : Nat :=
  ((List.range 4).find? (fun p => x < 1024 ^ (p + 1))).getD 3

/-- Spec §4.4 byte-size formatter: scale `x` by the chosen unit and
print with one decimal place and the unit's suffix, bytes themselves
printed whole. -/
def bytes_to_str_spec (x : Nat) : String :=
  let p := byte_unit_index x
  let suffix := (["b", "k", "M", "G"].getD p "G")
  if p = 0 then toString x ++ suffix
  else fmtTenths (tenthsDiv x (10 * p)) ++ suffix

/-! ### Helper lemmas -/

/-- A peer block's optional PresharedKey line, as an `Option.toList`
splice. -/
lemma peer_block_lines_toList (p : Peer) :
    Peer.block_lines p =
      ["[Peer]", "AllowedIPs = " ++ p.ip, "PublicKey = " ++ p.public_key]
        ++ (p.pre_shared_key.map (fun k => "PresharedKey = " ++ k)).toList ++ [""] := by
  rcases p with ⟨nm, ip, pk, psk⟩
  cases psk <;> simp [Peer.block_lines]

/-- Merging the two literal chunks of the synthesized PostUp command
(the Python source builds it from two adjacent f-strings). -/
lemma synth_postup_eq (n u : String) :
    "PostUp = iptables -I FORWARD 1 -i " ++ n ++ " -j ACCEPT; "
        ++ "iptables -t nat -I POSTROUTING 1 -o " ++ u ++ " -j MASQUERADE"
      = "PostUp = iptables -I FORWARD 1 -i " ++ n
        ++ " -j ACCEPT; iptables -t nat -I POSTROUTING 1 -o " ++ u ++ " -j MASQUERADE" := by
  rw [String.append_assoc ("PostUp = iptables -I FORWARD 1 -i " ++ n)
    " -j ACCEPT; " "iptables -t nat -I POSTROUTING 1 -o "]
  rfl

/-- Merging the two literal chunks of the synthesized PostDown command. -/
lemma synth_postdown_eq (n u : String) :
    "PostDown = iptables -D FORWARD -i " ++ n ++ " -j ACCEPT; "
        ++ "iptables -t nat -D POSTROUTING -o " ++ u ++ " -j MASQUERADE"
      = "PostDown = iptables -D FORWARD -i " ++ n
        ++ " -j ACCEPT; iptables -t nat -D POSTROUTING -o " ++ u ++ " -j MASQUERADE" := by
  rw [String.append_assoc ("PostDown = iptables -D FORWARD -i " ++ n)
    " -j ACCEPT; " "iptables -t nat -D POSTROUTING -o "]
  rfl

/-- The peer-block rewrite lifted over `List.map`. -/
lemma map_peer_block_lines (prs : List Peer) :
    prs.map Peer.block_lines
      = prs.map (fun p =>
          ["[Peer]", "AllowedIPs = " ++ p.ip, "PublicKey = " ++ p.public_key]
            ++ (p.pre_shared_key.map (fun k => "PresharedKey = " ++ k)).toList ++ [""]) := by
  induction prs with
  | nil => rfl
  | cons p t ih => simp [ih, peer_block_lines_toList]

/-! ### Claims -/

/-- C5: for every Config, `make_wg_conf` is total and produces exactly
one `[Interface]` block with keys in the order Address, SaveConfig
(always "false", hard-coded), ListenPort, PrivateKey, then MTU only if
set, followed by one `[Peer]` block per peer in original order, each
with AllowedIPs, PublicKey, then PresharedKey only if set, each peer
block followed by a blank separator line — stated as equality with
`render_spec`, the renderer assembled from the specification's §4.2
wording.  Totality is inherent: both sides are total Lean functions. -/
theorem claim_C5_rendered_structure (c : Config) : c.make_wg_conf = render_spec c := by
  rcases c with ⟨nm, sn, mtu, up, down, ifc, pt, pr, prs⟩
  cases mtu <;> cases up <;> cases down <;> cases ifc <;>
    simp [Config.make_wg_conf, render_spec, Config.wg_conf_lines,
      Config.interface_block_lines, Config.post_cmd_lines,
      map_peer_block_lines, synth_postup_eq, synth_postdown_eq]

/-- C6: the relative-time formatter agrees everywhere with the
specification's unit formulas and case order (`relative_spec`), gives
the spec's four sample outputs, and a last-handshake epoch of exactly 0
bypasses it entirely, displaying the literal "never" (grey) with an
empty "ago" suffix. -/
theorem claim_C6_relative_time :
    (∀ diff : Nat, time_to_relative_string_diff diff = relative_spec diff)
    ∧ time_to_relative_string_diff 0 = "0s"
    ∧ time_to_relative_string_diff 90 = "1m 30s"
    ∧ time_to_relative_string_diff 7300 = "2h 1m"
    ∧ time_to_relative_string_diff 90000 = "1d 1h"
    ∧ (∀ now : Int, handshake_display now 0 = some (GREY ++ "never", "")) := by
  refine ⟨fun diff => ?_, rfl, rfl, rfl, rfl, fun now => by simp [handshake_display]⟩
  have h1 : diff % 86400 % 3600 = diff % 3600 :=
    Nat.mod_mod_of_dvd diff (by norm_num)
  have h2 : diff % 3600 % 60 = diff % 60 :=
    Nat.mod_mod_of_dvd diff (by norm_num)
  simp only [time_to_relative_string_diff, relative_spec, h1, h2, gt_iff_lt]

/-- C7: the byte-size formatter agrees everywhere with the
specification's unit-selection rule (largest unit among b/k/M/G such
that the value is < 1024 in that unit, G for everything from 1024³ up),
scaling by 1024 powers with one decimal place, and gives the spec's
three sample outputs. -/
theorem claim_C7_byte_size :
    (∀ x : Nat, bytes_to_str x = bytes_to_str_spec x)
    ∧ bytes_to_str 512 = "512b"
    ∧ bytes_to_str 2048 = "2.0k"
    ∧ bytes_to_str 5242880 = "5.0M" := by
  refine ⟨fun x => ?_, rfl, rfl, rfl⟩
  unfold bytes_to_str bytes_to_str_spec byte_unit_index
  rw [show List.range 4 = [0, 1, 2, 3] from rfl]
  by_cases h1 : x < 1024
  · simp [List.find?, h1]
  · by_cases h2 : x < 1048576
    · simp [List.find?, h1, h2, fmtTenths]
    · by_cases h3 : x < 1073741824
      · simp [List.find?, h1, h2, h3, fmtTenths]
      · by_cases h4 : x < 1099511627776 <;>
          simp [List.find?, h1, h2, h3, h4, fmtTenths]

/-- Splitting off the `file:` marker of a key satisfies the startswith
test. -/
lemma pyStartsWith_file (s : String) : pyStartsWith ("file:" ++ s) "file:" = true := by
  simp [pyStartsWith, String.data_append]

/-- Dropping the `file:` marker of a key recovers the path. -/
lemma pyDropLeft_file (s : String) : pyDropLeft ("file:" ++ s) ("file:".length) = s := by
  simp [pyDropLeft, String.data_append, String.length]

/-- C1: the NAT/forwarding policy of `make_wg_conf` is mutually
exclusive with first match wins.  When both explicit commands are set
they are emitted verbatim and no synthesized rules appear (regardless
of `interface`); else when the uplink `interface` is set, the PostUp
line inserts the forwarding-accept rule for the VPN interface (the
Config's own `name`) and then the masquerade rule for the uplink, the
PostDown line deletes the same two rules, and each command is a fixed
template into which `name` and the uplink are interpolated exactly
once each, in that rule order; else no PostUp/PostDown lines are
emitted at all. -/
theorem claim_C1_nat_rule_synthesis (c : Config) :
    (∀ up down, c.post_up_cmd = some up → c.post_down_cmd = some down →
      c.wg_conf_lines =
        c.interface_block_lines
          ++ ["PostUp = " ++ up, "PostDown = " ++ down]
          ++ [""] ++ (c.peers.map Peer.block_lines).flatten)
    ∧ (∀ u, c.interface = some u → (c.post_up_cmd = none ∨ c.post_down_cmd = none) →
      c.wg_conf_lines =
        c.interface_block_lines
          ++ ["PostUp = iptables -I FORWARD 1 -i " ++ c.name
                ++ " -j ACCEPT; iptables -t nat -I POSTROUTING 1 -o " ++ u ++ " -j MASQUERADE",
              "PostDown = iptables -D FORWARD -i " ++ c.name
                ++ " -j ACCEPT; iptables -t nat -D POSTROUTING -o " ++ u ++ " -j MASQUERADE"]
          ++ [""] ++ (c.peers.map Peer.block_lines).flatten)
    ∧ (c.interface = none → (c.post_up_cmd = none ∨ c.post_down_cmd = none) →
      c.post_cmd_lines = [] ∧
      c.wg_conf_lines =
        c.interface_block_lines ++ [""] ++ (c.peers.map Peer.block_lines).flatten) := by
  refine ⟨?_, ?_, ?_⟩
  · intro up down hu hd
    simp [Config.wg_conf_lines, Config.post_cmd_lines, hu, hd]
  · intro u hi h
    rcases h with h | h
    · simp [Config.wg_conf_lines, Config.post_cmd_lines, h, hi,
        synth_postup_eq, synth_postdown_eq]
    · cases hup : c.post_up_cmd <;>
        simp [Config.wg_conf_lines, Config.post_cmd_lines, hup, h, hi,
          synth_postup_eq, synth_postdown_eq]
  · intro hi h
    rcases h with h | h
    · simp [Config.wg_conf_lines, Config.post_cmd_lines, h, hi]
    · cases hup : c.post_up_cmd <;>
        simp [Config.wg_conf_lines, Config.post_cmd_lines, hup, h, hi]

/-- Witness for C1: the three policy branches exercised on concrete
configurations. -/
theorem claim_C1_nat_rule_synthesis_witness :
    ((Config.mk "wg0" "10.0.0.1/24" none (some "U") (some "D") (some "eth0") 51820 "K" []).wg_conf_lines
      = (Config.mk "wg0" "10.0.0.1/24" none (some "U") (some "D") (some "eth0") 51820 "K" []).interface_block_lines
          ++ ["PostUp = " ++ "U", "PostDown = " ++ "D"]
          ++ [""]
          ++ (((Config.mk "wg0" "10.0.0.1/24" none (some "U") (some "D") (some "eth0") 51820 "K" []).peers.map
                Peer.block_lines).flatten))
    ∧ ((Config.mk "wg0" "10.0.0.1/24" none none none (some "eth0") 51820 "K" []).wg_conf_lines
      = (Config.mk "wg0" "10.0.0.1/24" none none none (some "eth0") 51820 "K" []).interface_block_lines
          ++ ["PostUp = iptables -I FORWARD 1 -i "
                ++ (Config.mk "wg0" "10.0.0.1/24" none none none (some "eth0") 51820 "K" []).name
                ++ " -j ACCEPT; iptables -t nat -I POSTROUTING 1 -o " ++ "eth0" ++ " -j MASQUERADE",
              "PostDown = iptables -D FORWARD -i "
                ++ (Config.mk "wg0" "10.0.0.1/24" none none none (some "eth0") 51820 "K" []).name
                ++ " -j ACCEPT; iptables -t nat -D POSTROUTING -o " ++ "eth0" ++ " -j MASQUERADE"]
          ++ [""]
          ++ (((Config.mk "wg0" "10.0.0.1/24" none none none (some "eth0") 51820 "K" []).peers.map
                Peer.block_lines).flatten))
    ∧ ((Config.mk "wg0" "10.0.0.1/24" none (some "U") none none 51820 "K" []).wg_conf_lines
      = (Config.mk "wg0" "10.0.0.1/24" none (some "U") none none 51820 "K" []).interface_block_lines
          ++ [""]
          ++ (((Config.mk "wg0" "10.0.0.1/24" none (some "U") none none 51820 "K" []).peers.map
                Peer.block_lines).flatten)) :=
  ⟨(claim_C1_nat_rule_synthesis _).1 "U" "D" rfl rfl,
   (claim_C1_nat_rule_synthesis _).2.1 "eth0" rfl (Or.inl rfl),
   ((claim_C1_nat_rule_synthesis _).2.2 rfl (Or.inr rfl)).2⟩

/-- C10 (implicit): when exactly one of the explicit post commands is
set, `make_wg_conf` silently discards the lone command: the rendered
lines equal those of the same configuration with both commands absent,
so the policy falls through to the synthesized NAT pair when an uplink
`interface` is set and to no PostUp/PostDown lines otherwise. -/
theorem claim_C10_lone_post_cmd_discarded (c : Config)
    (h : c.post_up_cmd.isSome ≠ c.post_down_cmd.isSome) :
    c.wg_conf_lines
        = ({ c with post_up_cmd := none, post_down_cmd := none } : Config).wg_conf_lines
      ∧ (∀ u, c.interface = some u →
          c.post_cmd_lines =
            ["PostUp = iptables -I FORWARD 1 -i " ++ c.name
               ++ " -j ACCEPT; iptables -t nat -I POSTROUTING 1 -o " ++ u ++ " -j MASQUERADE",
             "PostDown = iptables -D FORWARD -i " ++ c.name
               ++ " -j ACCEPT; iptables -t nat -D POSTROUTING -o " ++ u ++ " -j MASQUERADE"])
      ∧ (c.interface = none → c.post_cmd_lines = []) := by
  cases hup : c.post_up_cmd <;> cases hdn : c.post_down_cmd <;> simp [hup, hdn] at h <;>
    exact ⟨by simp [Config.wg_conf_lines, Config.interface_block_lines, Config.post_cmd_lines, hup, hdn],
           fun u hi => by simp [Config.post_cmd_lines, hup, hdn, hi, synth_postup_eq, synth_postdown_eq],
           fun hi => by simp [Config.post_cmd_lines, hup, hdn, hi]⟩

/-- Witness for C10: a configuration with only `post-up` set and no
uplink emits no PostUp/PostDown lines. -/
theorem claim_C10_lone_post_cmd_discarded_witness :
    (Config.mk "wg0" "10.0.0.1/24" none (some "U") none none 51820 "K" []).wg_conf_lines
        = ({ Config.mk "wg0" "10.0.0.1/24" none (some "U") none none 51820 "K" [] with
              post_up_cmd := none, post_down_cmd := none } : Config).wg_conf_lines
      ∧ (Config.mk "wg0" "10.0.0.1/24" none (some "U") none none 51820 "K" []).post_cmd_lines = [] :=
  ⟨(claim_C10_lone_post_cmd_discarded _ (by decide)).1,
   (claim_C10_lone_post_cmd_discarded _ (by decide)).2.2 rfl⟩

/-- C2: key-material indirection.  A key of the form `file:<path>`
resolves to the referenced file's contents with surrounding whitespace
stripped (a file containing "ABCDEF\n" yields "ABCDEF"); a missing file
is fatal (an error, never a returned key); any other value is returned
verbatim with no validation. -/
theorem claim_C2_key_indirection (fs : FileSystem) :
    (∀ path, fs path = none →
        Config.read_key fs ("file:" ++ path)
          = .error ("File \x27" ++ path ++ "\x27 does not exist"))
    ∧ (∀ path contents, fs path = some contents →
        Config.read_key fs ("file:" ++ path) = .ok (pyStrip contents))
    ∧ pyStrip "ABCDEF\n" = "ABCDEF"
    ∧ (∀ key, pyStartsWith key "file:" = false → Config.read_key fs key = .ok key) := by
  refine ⟨fun path h => ?_, fun path contents h => ?_, rfl, fun key h => ?_⟩
  · simp [Config.read_key, pyStartsWith_file, pyDropLeft_file, h]
  · simp [Config.read_key, pyStartsWith_file, pyDropLeft_file, h]
  · simp [Config.read_key, h]

/-- Witness for C2: a present file is read and stripped, a missing file
is a fatal error, a plain value passes through verbatim. -/
theorem claim_C2_key_indirection_witness :
    Config.read_key (fun p => if p = "k" then some "ABCDEF\n" else none) ("file:" ++ "k")
        = .ok "ABCDEF"
    ∧ Config.read_key (fun _ => none) ("file:" ++ "missing")
        = .error "File \x27missing\x27 does not exist"
    ∧ Config.read_key (fun _ => none) "plain" = .ok "plain" :=
  ⟨(claim_C2_key_indirection _).2.1 "k" "ABCDEF\n" (by simp),
   (claim_C2_key_indirection _).1 "missing" rfl,
   (claim_C2_key_indirection _).2.2.2 "plain" rfl⟩

/-- Reattaching a stripped `/32` suffix recovers the original string. -/
lemma pyDropRight_32_append (s : String) (h : pyEndsWith s "/32" = true) :
    pyDropRight s 3 ++ "/32" = s := by
  unfold pyEndsWith at h
  rw [beq_iff_eq] at h
  apply String.ext
  rw [String.data_append]
  show s.data.take (s.data.length - 3) ++ "/32".data = s.data
  conv at h => lhs; rw [show ("/32" : String).data.length = 3 from rfl]
  rw [← h, List.take_append_drop]

/-- C8: peer resolution.  `lookup_peer_by_pub_key` returns exactly the
first peer of the Config's sequence whose public key equals the
searched key (everything before it in the list does not match), and
`none` precisely when no peer matches; an unresolved dump record is
rendered as the fabricated peer named "unknown" carrying the record's
own reported allowed-IP and no pre-shared key (in the unknown name
colour), and the record loop still produces one display entry per
record, so later records are not aborted. -/
theorem claim_C8_peer_resolution (cfg : Config) :
    (∀ key p, cfg.lookup_peer_by_pub_key key = some p ↔
        p.public_key = key
          ∧ ∃ pre post, cfg.peers = pre ++ p :: post ∧ ∀ q ∈ pre, q.public_key ≠ key)
    ∧ (∀ key, cfg.lookup_peer_by_pub_key key = none ↔ ∀ q ∈ cfg.peers, q.public_key ≠ key)
    ∧ (∀ rec : DumpRecord, cfg.lookup_peer_by_pub_key rec.public_key = none →
        (process_dump_record cfg rec).peer
            = { name := "unknown", ip := rec.allowed_ips,
                public_key := rec.public_key, pre_shared_key := none }
          ∧ (process_dump_record cfg rec).is_unknown = true
          ∧ (process_dump_record cfg rec).name_colour = RED)
    ∧ (∀ recs, (process_dump_records cfg recs).length = recs.length) := by
  refine ⟨fun key p => ?_, fun key => ?_, fun rec h => ?_, fun recs => ?_⟩
  · unfold Config.lookup_peer_by_pub_key
    rw [List.find?_eq_some]
    simp
  · unfold Config.lookup_peer_by_pub_key
    rw [List.find?_eq_none]
    simp
  · refine ⟨?_, ?_, ?_⟩ <;> simp [process_dump_record, h, RED]
  · simp [process_dump_records]

/-- Witness for C8: in a two-peer configuration, an unmatched public
key yields the fabricated unknown peer. -/
theorem claim_C8_peer_resolution_witness :
    (process_dump_record
        (Config.mk "wg0" "10.0.0.1/24" none none none none 51820 "K"
          [Peer.mk "alice" "10.0.0.2/32" "PKA" none, Peer.mk "bob" "10.0.0.3/32" "PKB" none])
        (DumpRecord.mk "PKX" "(none)" "10.0.0.9/32" 0 0 0)).peer
        = { name := "unknown", ip := "10.0.0.9/32", public_key := "PKX", pre_shared_key := none }
      ∧ (process_dump_record
          (Config.mk "wg0" "10.0.0.1/24" none none none none 51820 "K"
            [Peer.mk "alice" "10.0.0.2/32" "PKA" none, Peer.mk "bob" "10.0.0.3/32" "PKB" none])
          (DumpRecord.mk "PKX" "(none)" "10.0.0.9/32" 0 0 0)).is_unknown = true
      ∧ (process_dump_record
          (Config.mk "wg0" "10.0.0.1/24" none none none none 51820 "K"
            [Peer.mk "alice" "10.0.0.2/32" "PKA" none, Peer.mk "bob" "10.0.0.3/32" "PKB" none])
          (DumpRecord.mk "PKX" "(none)" "10.0.0.9/32" 0 0 0)).name_colour = RED :=
  (claim_C8_peer_resolution _).2.2.1 (DumpRecord.mk "PKX" "(none)" "10.0.0.9/32" 0 0 0) (by decide)

/-- C9: the `/32` stripping on the status identity line is
display-only and applies to the record's own allowed-IPs field.  When
the record's allowed-IPs end in `/32` the displayed IP is that value
with the suffix removed (reattaching `/32` recovers it exactly),
otherwise the displayed IP is the value unchanged; the stored values
are unaffected: an unknown record's fabricated `Peer.ip` keeps the
unstripped record value, and a resolved record's peer is returned
exactly as it sits in the (immutable) Config — `process_dump_record`
is a pure function of `cfg` and cannot modify it. -/
theorem claim_C9_display_only_strip (cfg : Config) (rec : DumpRecord) :
    (pyEndsWith rec.allowed_ips "/32" = true →
        (process_dump_record cfg rec).display_ip ++ "/32" = rec.allowed_ips)
    ∧ (pyEndsWith rec.allowed_ips "/32" = false →
        (process_dump_record cfg rec).display_ip = rec.allowed_ips)
    ∧ ((process_dump_record cfg rec).is_unknown = true →
        (process_dump_record cfg rec).peer.ip = rec.allowed_ips)
    ∧ (∀ p, cfg.lookup_peer_by_pub_key rec.public_key = some p →
        (process_dump_record cfg rec).peer = p) := by
  refine ⟨fun h => ?_, fun h => ?_, fun h => ?_, fun p hp => ?_⟩
  · simp only [process_dump_record, h, if_true]
    exact pyDropRight_32_append _ h
  · simp [process_dump_record, h]
  · simp only [process_dump_record] at h ⊢
    cases hf : cfg.lookup_peer_by_pub_key rec.public_key <;> simp [hf] at h ⊢
  · simp [process_dump_record, hp]

/-- Witness for C9: a `/32`-suffixed unknown record is display-stripped
but stored whole; a record resolved against a configured peer returns
that peer unchanged, its IP not stripped. -/
theorem claim_C9_display_only_strip_witness :
    ((process_dump_record
        (Config.mk "wg0" "10.0.0.1/24" none none none none 51820 "K"
          [Peer.mk "alice" "10.0.0.2/32" "PKA" none])
        (DumpRecord.mk "PKX" "(none)" "10.0.0.9/32" 0 0 0)).display_ip ++ "/32" = "10.0.0.9/32")
      ∧ ((process_dump_record
          (Config.mk "wg0" "10.0.0.1/24" none none none none 51820 "K"
            [Peer.mk "alice" "10.0.0.2/32" "PKA" none])
          (DumpRecord.mk "PKX" "(none)" "10.0.0.9/32" 0 0 0)).peer.ip = "10.0.0.9/32")
      ∧ ((process_dump_record
          (Config.mk "wg0" "10.0.0.1/24" none none none none 51820 "K"
            [Peer.mk "alice" "10.0.0.2/32" "PKA" none])
          (DumpRecord.mk "PKA" "(none)" "10.0.0.2/24" 0 0 0)).peer
            = Peer.mk "alice" "10.0.0.2/32" "PKA" none) :=
  ⟨(claim_C9_display_only_strip _ _).1 (by decide),
   (claim_C9_display_only_strip _ _).2.2.1 (by decide),
   (claim_C9_display_only_strip _ _).2.2.2 _ (by decide)⟩

/-- Appending "/32" always yields a string containing a slash. -/
lemma pyContainsChar_append_32 (s : String) :
    pyContainsChar (s ++ "/32") '/' = true := by
  simp [pyContainsChar, String.data_append]

/-- A peer that `loadPeer` accepts came from a peer table whose raw
`ip` string was widened by `/32` exactly when it had no slash. -/
lemma loadPeer_ok_shape (fs : FileSystem) (name : String) (pval : TomlVal) (p : Peer)
    (h : loadPeer fs name pval = .ok p) :
    ∃ pcfg ip0, pval = .table pcfg ∧ lookupKey pcfg "ip" = some (.str ip0) ∧
      p.ip = if pyContainsChar ip0 '/' then ip0 else ip0 ++ "/32" := by
  cases pval with
  | str s => exact absurd h (by simp [loadPeer])
  | int n => exact absurd h (by simp [loadPeer])
  | table pcfg =>
    refine ⟨pcfg, ?_⟩
    simp only [loadPeer] at h
    split at h
    · exact absurd h (by simp)
    · split at h
      · exact absurd h (by simp)
      · split at h
        case _ ip0 heq =>
          refine ⟨ip0, rfl, heq, ?_⟩
          split at h
          · exact absurd h (by simp)
          · split at h
            · exact absurd h (by simp)
            · split at h
              case _ pk hpk =>
                split at h
                · exact absurd h (by simp)
                · rw [← (Except.ok.injEq _ _).mp h]
              · exact absurd h (by simp)
        case _ heq => exact absurd h (by simp)
        case _ heq => exact absurd h (by simp)

/-- Every peer of a list that `loadPeers` accepts was accepted by
`loadPeer`. -/
lemma loadPeers_ok_mem (fs : FileSystem) (l : List (String × TomlVal))
    (ps : List Peer) (h : loadPeers fs l = .ok ps) :
    ∀ p ∈ ps, ∃ nm pv, loadPeer fs nm pv = .ok p := by
  induction l generalizing ps with
  | nil =>
    simp only [loadPeers] at h
    rw [← (Except.ok.injEq _ _).mp h]
    simp
  | cons hd t ih =>
    simp only [loadPeers] at h
    split at h
    · exact absurd h (by simp)
    case _ p' hp' =>
      split at h
      · exact absurd h (by simp)
      case _ ps' hps' =>
        rw [← (Except.ok.injEq _ _).mp h]
        intro p hp
        rcases List.mem_cons.mp hp with hp | hp
        · exact ⟨hd.1, hd.2, hp ▸ hp'⟩
        · exact ih ps' hps' p hp

/-- The peers of a Config that `load` accepts are empty or accepted by
`loadPeers` from the `peer` table. -/
lemma load_ok_peers (fs : FileSystem) (file : String)
    (cfg : List (String × TomlVal)) (c : Config)
    (h : Config.load fs file cfg = .ok c) :
    c.peers = [] ∨ ∃ ps, lookupKey cfg "peer" = some (.table ps)
      ∧ loadPeers fs ps = .ok c.peers := by
  simp only [Config.load] at h
  split at h
  · exact absurd h (by simp)
  case _ srv _ =>
    split at h
    · exact absurd h (by simp)
    · split at h
      · exact absurd h (by simp)
      · split at h
        · exact absurd h (by simp)
        · split at h
          case _ port _ =>
            split at h
            · exact absurd h (by simp)
            · split at h
              · exact absurd h (by simp)
              · split at h
                case _ subnet _ =>
                  split at h
                  · exact absurd h (by simp)
                  · split at h
                    case _ e _ => exact absurd h (by simp)
                    case _ peers hpeers =>
                      split at h
                      · exact absurd h (by simp)
                      case _ priv _ =>
                        rw [← (Except.ok.injEq _ _).mp h]
                        split at hpeers
                        · left
                          rw [← (Except.ok.injEq _ _).mp hpeers]
                        case _ ps hps =>
                          right
                          exact ⟨ps, hps, hpeers⟩
                        · exact absurd hpeers (by simp)
                case _ => exact absurd h (by simp)
                case _ => exact absurd h (by simp)
          case _ => exact absurd h (by simp)
          case _ => exact absurd h (by simp)
  case _ => exact absurd h (by simp)

/-- C4: peer IP normalization.  A peer whose raw `ip` value has no `/`
prefix is loaded with `ip` equal to the raw value with "/32" appended;
a raw value that already carries a prefix is loaded unchanged; hence
every peer of a successfully loaded Config has an `ip` containing a
`/`, i.e. in CIDR form. -/
theorem claim_C4_peer_ip_normalization :
    (∀ (fs : FileSystem) (name : String) (pcfg : List (String × TomlVal)) (ip0 : String) (p : Peer),
        lookupKey pcfg "ip" = some (.str ip0) →
        loadPeer fs name (.table pcfg) = .ok p →
        (pyContainsChar ip0 '/' = false → p.ip = ip0 ++ "/32")
          ∧ (pyContainsChar ip0 '/' = true → p.ip = ip0))
    ∧ (∀ (fs : FileSystem) (file : String) (cfg : List (String × TomlVal)) (c : Config),
        Config.load fs file cfg = .ok c →
        ∀ p ∈ c.peers, pyContainsChar p.ip '/' = true) := by
  constructor
  · intro fs name pcfg ip0 p hip h
    obtain ⟨pcfg', ip0', heq, hip', hipeq⟩ := loadPeer_ok_shape fs name _ p h
    have hpc : pcfg' = pcfg := by
      injection heq with h1
      exact h1.symm
    rw [hpc] at hip'
    have hi : ip0' = ip0 := by
      rw [hip] at hip'
      injection hip' with hv
      injection hv with h2
      exact h2.symm
    rw [hi] at hipeq
    constructor
    · intro hc; rw [hipeq, hc]; simp
    · intro hc; rw [hipeq, hc]; simp
  · intro fs file cfg c h p hp
    rcases load_ok_peers fs file cfg c h with h0 | ⟨ps, _, hlp⟩
    · rw [h0] at hp; simp at hp
    · obtain ⟨nm, pv, hpeer⟩ := loadPeers_ok_mem fs ps c.peers hlp p hp
      obtain ⟨pcfg, ip0, _, _, hipeq⟩ := loadPeer_ok_shape fs nm pv p hpeer
      rw [hipeq]
      by_cases hc : pyContainsChar ip0 '/' = true
      · simp [hc]
      · simp [eq_false_of_ne_true hc, pyContainsChar_append_32]

/-- Witness for C4: a bare peer IP is widened to `/32` by `loadPeer`,
and every peer of a concretely loaded Config is in CIDR form. -/
theorem claim_C4_peer_ip_normalization_witness :
    ((Peer.mk "alice" "10.0.0.2/32" "PKA" none).ip = "10.0.0.2" ++ "/32")
      ∧ pyContainsChar (Peer.mk "alice" "10.0.0.2/32" "PKA" none).ip '/' = true :=
  ⟨(claim_C4_peer_ip_normalization.1 (fun _ => none) "alice"
      [("public-key", .str "PKA"), ("ip", .str "10.0.0.2")] "10.0.0.2"
      (Peer.mk "alice" "10.0.0.2/32" "PKA" none) rfl rfl).1 rfl,
   claim_C4_peer_ip_normalization.2 (fun _ => none) "wg0.toml"
      [("server", .table [("subnet", .str "10.0.0.1/24"), ("port", .int 51820),
          ("private-key", .str "K")]),
       ("peer", .table [("alice", .table [("public-key", .str "PKA"),
          ("ip", .str "10.0.0.2")])])]
      (Config.mk "wg0" "10.0.0.1/24" none none none none 51820 "K"
        [Peer.mk "alice" "10.0.0.2/32" "PKA" none])
      rfl (Peer.mk "alice" "10.0.0.2/32" "PKA" none) (by simp)⟩

/-- C3: loader validation.  Each schema violation makes `load` fail
with its specific diagnostic, never returning a Config, and the checks
fire in source order: missing `server`; missing `subnet`, `port`,
`private-key` (in that order, regardless of the later checks);
non-integer `port`; `port` outside [1, 65535]; non-integer `mtu` when
present; `subnet` not matching the dotted-quad-with-mandatory-prefix
pattern — in particular the prefixless "10.0.0.0" fails rather than
silently defaulting. -/
theorem claim_C3_load_validation (fs : FileSystem) (file : String) :
    (∀ cfg, lookupKey cfg "server" = none →
        Config.load fs file cfg = .error "Missing required key \x27server\x27")
    ∧ (∀ cfg srv, lookupKey cfg "server" = some (.table srv) →
        lookupKey srv "subnet" = none →
        Config.load fs file cfg = .error "Missing required key \x27subnet\x27 in \x27server\x27")
    ∧ (∀ cfg srv sv, lookupKey cfg "server" = some (.table srv) →
        lookupKey srv "subnet" = some sv →
        lookupKey srv "port" = none →
        Config.load fs file cfg = .error "Missing required key \x27port\x27 in \x27server\x27")
    ∧ (∀ cfg srv sv pv, lookupKey cfg "server" = some (.table srv) →
        lookupKey srv "subnet" = some sv →
        lookupKey srv "port" = some pv →
        lookupKey srv "private-key" = none →
        Config.load fs file cfg = .error "Missing required key \x27private-key\x27 in \x27server\x27")
    ∧ (∀ cfg srv sv pv kv, lookupKey cfg "server" = some (.table srv) →
        lookupKey srv "subnet" = some sv →
        lookupKey srv "port" = some pv →
        lookupKey srv "private-key" = some kv →
        pv.isInt = false →
        Config.load fs file cfg = .error "\x27port\x27 key must be an integer")
    ∧ (∀ cfg srv sv kv n, lookupKey cfg "server" = some (.table srv) →
        lookupKey srv "subnet" = some sv →
        lookupKey srv "port" = some (.int n) →
        lookupKey srv "private-key" = some kv →
        (n < 1 ∨ 65535 < n) →
        Config.load fs file cfg = .error "\x27port\x27 must be between 1 and 65535")
    ∧ (∀ cfg srv sv kv n mv, lookupKey cfg "server" = some (.table srv) →
        lookupKey srv "subnet" = some sv →
        lookupKey srv "port" = some (.int n) →
        lookupKey srv "private-key" = some kv →
        1 ≤ n → n ≤ 65535 →
        lookupKey srv "mtu" = some mv →
        mv.isInt = false →
        Config.load fs file cfg = .error "\x27mtu\x27 key must be an integer")
    ∧ (∀ cfg srv s kv n, lookupKey cfg "server" = some (.table srv) →
        lookupKey srv "subnet" = some (.str s) →
        lookupKey srv "port" = some (.int n) →
        lookupKey srv "private-key" = some kv →
        1 ≤ n → n ≤ 65535 →
        (∀ mv, lookupKey srv "mtu" = some mv → mv.isInt = true) →
        matchesSubnetPattern s = false →
        Config.load fs file cfg
          = .error "Invalid \x27subnet\x27 specification; expected subnet in CIDR notation")
    ∧ matchesSubnetPattern "10.0.0.0" = false := by
  refine ⟨?_, ?_, ?_, ?_, ?_, ?_, ?_, ?_, rfl⟩
  · intro cfg h
    simp [Config.load, h]
  · intro cfg srv hs hsub
    simp [Config.load, hs, hsub]
  · intro cfg srv sv hs hsub hport
    simp [Config.load, hs, hsub, hport]
  · intro cfg srv sv pv hs hsub hport hpk
    simp [Config.load, hs, hsub, hport, hpk]
  · intro cfg srv sv pv kv hs hsub hport hpk hint
    cases pv with
    | int n => simp [TomlVal.isInt] at hint
    | str s => simp [Config.load, hs, hsub, hport, hpk]
    | table kvs => simp [Config.load, hs, hsub, hport, hpk]
  · intro cfg srv sv kv n hs hsub hport hpk hrange
    rcases hrange with h | h
    · simp [Config.load, hs, hsub, hport, hpk, show ¬ (1 ≤ n) from by omega]
    · simp [Config.load, hs, hsub, hport, hpk, show ¬ (n ≤ 65535) from by omega]
  · intro cfg srv sv kv n mv hs hsub hport hpk h1 h2 hmtu hmv
    simp [Config.load, hs, hsub, hport, hpk, h1, h2, hmtu, hmv]
  · intro cfg srv s kv n hs hsub hport hpk h1 h2 hmtu hbad
    cases hm : lookupKey srv "mtu" with
    | none => simp [Config.load, hs, hsub, hport, hpk, h1, h2, hm, hbad]
    | some mv =>
      have := hmtu mv hm
      simp [Config.load, hs, hsub, hport, hpk, h1, h2, hm, this, hbad]

/-- Witness for C3: concrete inputs for a missing `server` section, an
out-of-range port, and the spec's prefixless subnet example. -/
theorem claim_C3_load_validation_witness :
    Config.load (fun _ => none) "wg0.toml" []
        = .error "Missing required key \x27server\x27"
      ∧ Config.load (fun _ => none) "wg0.toml"
          [("server", .table [("subnet", .str "10.0.0.1/24"), ("port", .int 0),
              ("private-key", .str "K")])]
          = .error "\x27port\x27 must be between 1 and 65535"
      ∧ Config.load (fun _ => none) "wg0.toml"
          [("server", .table [("subnet", .str "10.0.0.0"), ("port", .int 51820),
              ("private-key", .str "K")])]
          = .error "Invalid \x27subnet\x27 specification; expected subnet in CIDR notation" :=
  ⟨(claim_C3_load_validation (fun _ => none) "wg0.toml").1 [] rfl,
   (claim_C3_load_validation (fun _ => none) "wg0.toml").2.2.2.2.2.1 _ _
      (.str "10.0.0.1/24") (.str "K") 0 rfl rfl rfl rfl (Or.inl (by norm_num)),
   (claim_C3_load_validation (fun _ => none) "wg0.toml").2.2.2.2.2.2.2.1 _ _
      "10.0.0.0" (.str "K") 51820 rfl rfl rfl rfl (by norm_num) (by norm_num)
      (fun mv hmv => by simp [lookupKey] at hmv) rfl⟩

end Wgman
